/-
  Verification of the IncludeOS `vmbuild` image builder
  (src/vmbuild/vmbuild.cpp).

  The program assembles a bootable disk image from a 512-byte boot
  sector and an ELF service binary.  We model the byte buffers as
  `List Nat` (each entry one byte), machine integers as `Nat` with
  explicit `% 2 ^ 32` where the code truncates, and every fallible
  step of `main` as an `Except` value.  The file-system effects
  (bytes actually read by `ifstream::read`, bytes actually written by
  `fwrite`) are passed in explicitly, so short reads and short writes
  are expressible.
-/
import Mathlib

set_option maxRecDepth 100000

namespace Vmbuild

/-- `SECT_SIZE` from vmbuild.cpp line 33. -/
def SECT_SIZE : Nat := 512

/-- `SECT_SIZE_ERR` from vmbuild.cpp line 34: exit code when the boot
sector is not exactly one sector. -/
def SECT_SIZE_ERR : Nat := 666

/-- `DISK_SIZE_ERR` from vmbuild.cpp line 35 (reserved, unused). -/
def DISK_SIZE_ERR : Nat := 999

/-- Read `n` bytes little-endian starting at `off`; `none` when any
byte is outside the buffer. -/
def readLE (l : List Nat) (off : Nat) : Nat → Option Nat
  | 0 => some 0
  | n + 1 =>
    match l[off]?, readLE l (off + 1) n with
    | some b, some rest => some (b + 256 * rest)
    | _, _ => none

/-- Store `v` as `n` little-endian bytes starting at `off`
(`List.set` is a no-op outside the buffer, mirroring that the code
only ever patches inside the first sector). -/
def writeLE (l : List Nat) (off v : Nat) : Nat → List Nat
  | 0 => l
  | n + 1 => writeLE (l.set off (v % 256)) (off + 1) (v / 256) n

/-- Lines 129-130: `binary_sectors = st_size / SECT_SIZE`, plus one
when `st_size & (SECT_SIZE-1)` is non-zero (`x & 511 = x % 512`). -/
def binarySectors (s : Nat) : Nat :=
  s / SECT_SIZE + (if s % SECT_SIZE ≠ 0 then 1 else 0)

/-- Lines 134-135: total image size in bytes. -/
def imgSizeBytes (s : Nat) : Nat := (1 + binarySectors s) * SECT_SIZE

/-- Lines 146-160: the zero-initialised `vector<char> disk`, with the
first `rb` bytes of the boot sector placed at offset 0 and the first
`rs` bytes of the service placed at offset 512 (`rb`, `rs` are the
`gcount()` results of the two `ifstream::read` calls; the geometry
uses the `stat` sizes, i.e. the full list lengths). -/
def diskLoad (boot service : List Nat) (rb rs : Nat) : List Nat :=
  (boot.take rb ++ List.replicate (SECT_SIZE - rb) 0) ++
    (service.take rs ++
      List.replicate (imgSizeBytes service.length - SECT_SIZE - rs) 0)

/-- The error/abort conditions of `main`.  `oobRead` marks a read
outside the allocated disk buffer (undefined behaviour in the C++,
`none` in this total embedding). -/
inductive VmErr where
  | sectSize
  | oobRead
  | notElf
  | unknownClass
  | missingMultiboot
  | badMultibootMagic (magic : Nat)
  | badMultibootChecksum (sum : Nat)
  deriving DecidableEq, Repr

/-- The eight 4-byte fields of `multiboot_header`
(api/boot/multiboot.h, used at lines 175-195). -/
structure MultibootHdr where
  magic : Nat
  flags : Nat
  checksum : Nat
  header_addr : Nat
  load_addr : Nat
  load_end_addr : Nat
  bss_end_addr : Nat
  entry_addr : Nat
  deriving DecidableEq, Repr

/-- `MULTIBOOT_HEADER_MAGIC`. -/
def MULTIBOOT_HEADER_MAGIC : Nat := 0x1BADB002

/-- The byte values of the section name `".multiboot"`. -/
def multibootName : List Nat := [46, 109, 117, 108, 116, 105, 98, 111, 111, 116]

/-- Does the NUL-terminated string at `base` equal `".multiboot"`? -/
def nameMatchesAt (l : List Nat) (base : Nat) : Bool :=
  (List.range 10).all (fun k => l[base + k]? == some (multibootName.getD k 0))
    && (l[base + 10]? == some 0)

/-- Modelled from the spec: `Elf_binary<Elf32>::section_header(".multiboot")`
lives in api/util/elf_binary.hpp, which is not part of the sources here.
Per the spec's Format Inspector, the ELF32 section-header table is
parsed and the section literally named `.multiboot` is located by
name-string comparison.  We read the standard ELF32 header fields
(`e_shoff` at 32, `e_shnum` at 48, `e_shstrndx` at 50; section headers
of 40 bytes with `sh_name` at 0 and `sh_offset` at 16) relative to the
service's position 512 in the disk buffer, and return the file offset
of the section's data, or `none` when no section matches. -/
def findMultiboot (disk : List Nat) : Option Nat := do
  let shoff ← readLE disk (512 + 32) 4
  let shnum ← readLE disk (512 + 48) 2
  let shstrndx ← readLE disk (512 + 50) 2
  let strOff ← readLE disk (512 + shoff + 40 * shstrndx + 16) 4
  let idx ← (List.range shnum).find? (fun i =>
    match readLE disk (512 + shoff + 40 * i) 4 with
    | some nameIdx => nameMatchesAt disk (512 + strOff + nameIdx)
    | none => false)
  readLE disk (512 + shoff + 40 * idx + 16) 4

/-- Line 175: the eight little-endian `uint32_t` fields read at the
section's data (`off` is a disk-buffer offset). -/
def decodeMultiboot (disk : List Nat) (off : Nat) : Option MultibootHdr := do
  let magic ← readLE disk off 4
  let flags ← readLE disk (off + 4) 4
  let checksum ← readLE disk (off + 8) 4
  let header_addr ← readLE disk (off + 12) 4
  let load_addr ← readLE disk (off + 16) 4
  let load_end_addr ← readLE disk (off + 20) 4
  let bss_end_addr ← readLE disk (off + 24) 4
  let entry_addr ← readLE disk (off + 28) 4
  pure ⟨magic, flags, checksum, header_addr, load_addr, load_end_addr,
        bss_end_addr, entry_addr⟩

/-- Lines 174-189: locate `.multiboot` (build-fatal when absent),
then `assert(multiboot.magic == MULTIBOOT_HEADER_MAGIC)` and
`assert(multiboot.checksum + multiboot.flags + multiboot.magic == 0)`
(uint32 arithmetic, i.e. the sum taken mod 2^32). -/
def checkMultiboot (disk : List Nat) : Except VmErr Unit :=
  match findMultiboot disk with
  | none => .error .missingMultiboot
  | some off =>
    match decodeMultiboot disk (512 + off) with
    | none => .error .oobRead
    | some h =>
      if h.magic ≠ MULTIBOOT_HEADER_MAGIC then
        .error (.badMultibootMagic h.magic)
      else if (h.magic + h.flags + h.checksum) % 2 ^ 32 ≠ 0 then
        .error (.badMultibootChecksum ((h.magic + h.flags + h.checksum) % 2 ^ 32))
      else .ok ()

/-- Lines 197-199 / 208-210: patch the sector count (4 bytes at
offset `bootvar_binary_size = 4`) and the entry point (4 bytes at
offset `bootvar_binary_location = 8`), both truncated to 32 bits. -/
def patchBoot (disk : List Nat) (sectors entry : Nat) : List Nat :=
  writeLE (writeLE disk 4 (sectors % 2 ^ 32) 4) 8 (entry % 2 ^ 32) 4

/-- Lines 224-229: in test mode overwrite every byte of the service
area, `disk[512 + i] = i % 256` for `i < img_size_bytes - 512`. -/
def testFill (l : List Nat) : List Nat :=
  l.take 512 ++ (List.range (l.length - 512)).map (· % 256)

/-- Apply the test-mode overwrite when requested. -/
def finalize (l : List Nat) (testMode : Bool) : List Nat :=
  if testMode then testFill l else l

/-- Lines 163-222: inspect the loaded disk buffer.  The ELF magic and
class bytes are read at disk offsets 512..516 (`EI_MAG0..EI_MAG3 =
0..3`, `EI_CLASS = 4`, values `0x7f 'E' 'L' 'F'`, `ELFCLASS32 = 1`,
`ELFCLASS64 = 2`, from the standard ELF layout declared in
api/util/elf.h).  ELF32: verify the multiboot header, then patch with
`binary.entry()` — modelled from the spec as the standard ELF32
`e_entry` field, 4 bytes at service offset 24.  ELF64: patch with the
low 32 bits of `e_entry`, 8 bytes at service offset 24.  Anything
else aborts. -/
def buildImage (disk : List Nat) (sectors : Nat) (testMode : Bool) :
    Except VmErr (List Nat) :=
  match disk[512]?, disk[513]?, disk[514]?, disk[515]? with
  | some m0, some m1, some m2, some m3 =>
    if m0 = 0x7f ∧ m1 = 0x45 ∧ m2 = 0x4c ∧ m3 = 0x46 then
      match disk[516]? with
      | some cls =>
        if cls = 1 then
          match checkMultiboot disk with
          | .error e => .error e
          | .ok _ =>
            match readLE disk (512 + 24) 4 with
            | none => .error .oobRead
            | some entry => .ok (finalize (patchBoot disk sectors entry) testMode)
        else if cls = 2 then
          match readLE disk (512 + 24) 8 with
          | none => .error .oobRead
          | some entry => .ok (finalize (patchBoot disk sectors entry) testMode)
        else .error .unknownClass
      | none => .error .oobRead
    else .error .notElf
  | _, _, _, _ => .error .oobRead

/-- `main` up to (but not including) the `fopen`/`fwrite` at lines
232-238: validate the boot-sector size (line 116), load both files
(`rb`/`rs` bytes actually read), inspect, validate and patch.  A
successful result is the final in-memory disk buffer. -/
def vmbuildWith (boot service : List Nat) (rb rs : Nat) (testMode : Bool) :
    Except VmErr (List Nat) :=
  if boot.length = SECT_SIZE then
    buildImage (diskLoad boot service rb rs) (binarySectors service.length) testMode
  else .error .sectSize

/-- The run in which both reads return the full file contents. -/
def vmbuild (boot service : List Nat) (testMode : Bool) :
    Except VmErr (List Nat) :=
  vmbuildWith boot service boot.length service.length testMode

/-- How a run of `main` terminates: a return code, or an abnormal
abort (`assert` failure / `std::terminate`). -/
inductive ExitOutcome where
  | code (n : Nat)
  | aborted
  deriving DecidableEq, Repr

/-- Exit outcome of each error path: line 119 returns
`SECT_SIZE_ERR`; the ELF-format and multiboot failures go through
`std::terminate` (lines 215, 221) or a failed `assert` (lines 182,
189), and the out-of-bounds read is undefined behaviour — all
abnormal aborts. -/
def exitOf : VmErr → ExitOutcome
  | .sectSize => .code SECT_SIZE_ERR
  | _ => .aborted

/-- Lines 232-238 joined with the rest of `main`: on success the
image file receives the `wrote` bytes that `fwrite` reported written
(the code never compares `wrote` to `disk_size`, and `main` then
falls off the end, returning 0); on a validation error the `fopen`
at line 232 was never reached, so no output file exists (`none`). -/
def vmbuildRun (boot service : List Nat) (rb rs : Nat) (testMode : Bool)
    (wrote : Nat) : ExitOutcome × Option (List Nat) :=
  match vmbuildWith boot service rb rs testMode with
  | .error e => (exitOf e, none)
  | .ok img => (.code 0, some (img.take wrote))

/-- Linux errno values occupy `[1, 133]` (`EPERM = 1` up to
`EHWPOISON = 133`); the `stat`-failure paths at lines 113 and 126
return `errno` directly. -/
def isLinuxErrno (e : Nat) : Prop := 1 ≤ e ∧ e ≤ 133

/-- A buffer whose entries are genuine bytes. -/
def IsBytes (l : List Nat) : Prop := ∀ b ∈ l, b < 256

/-! ### Concrete sample inputs -/

/-- `v` as `n` little-endian byte values. -/
def leBytes (v : Nat) (n : Nat) : List Nat :=
  (List.range n).map (fun k => v / 256 ^ k % 256)

/-- The byte values of the section name `".shstrtab"`. -/
def shstrtabName : List Nat := [46, 115, 104, 115, 116, 114, 116, 97, 98]

/-- A minimal well-formed ELF32 service binary (226 bytes): ELF32
header with entry point `0x00100000`, three section headers (null,
`.multiboot` at file offset 172, `.shstrtab` at 204), and a valid
multiboot header (`magic = 0x1BADB002`, `flags = 0`,
`checksum = 0xE4524FFE`, so the sum is `2^32 ≡ 0`). -/
def elf32Sample : List Nat :=
  [0x7f, 0x45, 0x4c, 0x46, 1, 1, 1] ++ List.replicate 9 0
  ++ leBytes 2 2 ++ leBytes 3 2 ++ leBytes 1 4
  ++ leBytes 0x00100000 4 ++ leBytes 0 4 ++ leBytes 52 4 ++ leBytes 0 4
  ++ leBytes 52 2 ++ leBytes 0 2 ++ leBytes 0 2 ++ leBytes 40 2
  ++ leBytes 3 2 ++ leBytes 2 2
  ++ List.replicate 40 0
  ++ leBytes 1 4 ++ leBytes 1 4 ++ leBytes 0 4 ++ leBytes 0 4
    ++ leBytes 172 4 ++ leBytes 32 4 ++ List.replicate 16 0
  ++ leBytes 12 4 ++ leBytes 3 4 ++ leBytes 0 4 ++ leBytes 0 4
    ++ leBytes 204 4 ++ leBytes 22 4 ++ List.replicate 16 0
  ++ leBytes 0x1BADB002 4 ++ leBytes 0 4 ++ leBytes 0xE4524FFE 4
    ++ List.replicate 20 0
  ++ [0] ++ multibootName ++ [0] ++ shstrtabName ++ [0]

/-- `elf32Sample` with the multiboot checksum field (file offset 180)
zeroed, violating the checksum invariant. -/
def elf32BadChk : List Nat := writeLE elf32Sample 180 0 4

/-- A minimal ELF64 service binary (40 bytes): class byte 2, 64-bit
entry point `0x100000042` at offset 24 (its low 32 bits are `0x42`),
and a trailing pad of bytes with value 7. -/
def elf64Sample : List Nat :=
  [0x7f, 0x45, 0x4c, 0x46, 2, 1, 1] ++ List.replicate 9 0
  ++ leBytes 2 2 ++ leBytes 62 2 ++ leBytes 1 4
  ++ leBytes 0x100000042 8
  ++ List.replicate 8 7

/-- A 512-byte boot sector with recognisable contents. -/
def boot0 : List Nat := (List.range 512).map (· % 256)

/-- A boot sector that is one byte short. -/
def boot511 : List Nat := List.replicate 511 0

/-- The image produced from `boot0` and `elf32Sample`. -/
def img32 : List Nat := (vmbuild boot0 elf32Sample false).toOption.getD []

/-- The image produced from `boot0` and `elf64Sample`. -/
def img64 : List Nat := (vmbuild boot0 elf64Sample false).toOption.getD []

/-- The image produced from `boot0` and `elf32Sample` in test mode. -/
def img32t : List Nat := (vmbuild boot0 elf32Sample true).toOption.getD []

/-! ### Helper lemmas -/

theorem writeLE_length (l : List Nat) (off v : Nat) :
    ∀ n, (writeLE l off v n).length = l.length := by
  intro n
  induction n generalizing l off v with
  | zero => rfl
  | succ n ih => rw [writeLE, ih, List.length_set]

theorem getElem?_writeLE_ne (l : List Nat) (off v i : Nat) :
    ∀ n, i < off ∨ off + n ≤ i → (writeLE l off v n)[i]? = l[i]? := by
  intro n
  induction n generalizing l off v with
  | zero => intro _; rfl
  | succ n ih =>
    intro h
    rw [writeLE, ih _ _ _ (by omega), List.getElem?_set_ne (by omega)]

theorem readLE_congr {a b : List Nat} {off : Nat} :
    ∀ n, (∀ i, off ≤ i → i < off + n → a[i]? = b[i]?) →
      readLE a off n = readLE b off n := by
  intro n
  induction n generalizing off with
  | zero => intro _; rfl
  | succ n ih =>
    intro h
    rw [readLE, readLE, h off (by omega) (by omega),
      ih (fun i h1 h2 => h i (by omega) (by omega))]

theorem readLE_writeLE (l : List Nat) (off v : Nat) :
    ∀ n, off + n ≤ l.length →
      readLE (writeLE l off v n) off n = some (v % 256 ^ n) := by
  intro n
  induction n generalizing l off v with
  | zero => intro _; simp [readLE, Nat.mod_one]
  | succ n ih =>
    intro h
    rw [writeLE, readLE]
    have h1 : (writeLE (l.set off (v % 256)) (off + 1) (v / 256) n)[off]?
        = (l.set off (v % 256))[off]? :=
      getElem?_writeLE_ne _ _ _ _ _ (by omega)
    rw [h1, List.getElem?_set_eq_of_lt _ (by omega),
      ih _ _ _ (by rw [List.length_set]; omega)]
    have h2 : v % 256 ^ (n + 1) = v % 256 + 256 * (v / 256 % 256 ^ n) := by
      rw [pow_succ']
      exact Nat.mod_mul
    rw [h2]

theorem readLE_lt {l : List Nat} (hl : IsBytes l) {off : Nat} :
    ∀ n v, readLE l off n = some v → v < 256 ^ n := by
  intro n
  induction n generalizing off with
  | zero =>
    intro v h
    simp only [readLE, Option.some.injEq] at h
    omega
  | succ n ih =>
    intro v h
    rw [readLE] at h
    match hb : l[off]?, hr : readLE l (off + 1) n with
    | some b, some rest =>
      rw [hb, hr] at h
      simp only [Option.some.injEq] at h
      have h1 : b < 256 := hl b (List.getElem?_mem hb)
      have h2 : rest < 256 ^ n := ih _ hr
      have h3 : 256 * (rest + 1) ≤ 256 * 256 ^ n := by
        exact Nat.mul_le_mul_left _ h2
      rw [pow_succ']
      omega
    | some b, none => rw [hb, hr] at h; exact Option.noConfusion h
    | none, some rest => rw [hb, hr] at h; exact Option.noConfusion h
    | none, none => rw [hb, hr] at h; exact Option.noConfusion h

theorem binarySectors_eq_ceil (s : Nat) :
    binarySectors s = (s + 511) / 512 := by
  unfold binarySectors SECT_SIZE
  split <;> omega

theorem le_imgSizeBytes (s : Nat) : s + 512 ≤ imgSizeBytes s := by
  unfold imgSizeBytes binarySectors SECT_SIZE
  split <;> omega

theorem imgSizeBytes_pos (s : Nat) : 512 ≤ imgSizeBytes s := by
  have := le_imgSizeBytes s
  omega

theorem imgSizeBytes_ge (s : Nat) (h : 1 ≤ s) : 1024 ≤ imgSizeBytes s := by
  unfold imgSizeBytes binarySectors SECT_SIZE
  split <;> omega

theorem imgSizeBytes_mod (s : Nat) : imgSizeBytes s % 512 = 0 := by
  unfold imgSizeBytes SECT_SIZE
  exact Nat.mul_mod_left _ _

theorem testFill_length {l : List Nat} (h : 512 ≤ l.length) :
    (testFill l).length = l.length := by
  simp only [testFill, List.length_append, List.length_take,
    List.length_map, List.length_range]
  omega

theorem getElem?_testFill_lt {l : List Nat} {i : Nat} (h : 512 ≤ l.length)
    (hi : i < 512) : (testFill l)[i]? = l[i]? := by
  rw [testFill, List.getElem?_append_left
    (by simp only [List.length_take]; omega), List.getElem?_take_of_lt hi]

theorem finalize_length {l : List Nat} {t : Bool} (h : 512 ≤ l.length) :
    (finalize l t).length = l.length := by
  unfold finalize
  split
  · exact testFill_length h
  · rfl

theorem getElem?_finalize_lt {l : List Nat} {t : Bool} {i : Nat}
    (h : 512 ≤ l.length) (hi : i < 512) : (finalize l t)[i]? = l[i]? := by
  unfold finalize
  split
  · exact getElem?_testFill_lt h hi
  · rfl

theorem patchBoot_length (disk : List Nat) (s e : Nat) :
    (patchBoot disk s e).length = disk.length := by
  rw [patchBoot, writeLE_length, writeLE_length]

theorem finalize_patch_length {disk : List Nat} {s e : Nat} {t : Bool}
    (h : 512 ≤ disk.length) :
    (finalize (patchBoot disk s e) t).length = disk.length := by
  rw [finalize_length (by rw [patchBoot_length]; omega), patchBoot_length]

theorem getElem?_patchBoot_frame {disk : List Nat} {s e i : Nat}
    (h : i < 4 ∨ 12 ≤ i) : (patchBoot disk s e)[i]? = disk[i]? := by
  rw [patchBoot, getElem?_writeLE_ne _ _ _ _ _ (by omega),
    getElem?_writeLE_ne _ _ _ _ _ (by omega)]

theorem readLE_finalize_patch_entry {disk : List Nat} {s e : Nat} {t : Bool}
    (h : 512 ≤ disk.length) :
    readLE (finalize (patchBoot disk s e) t) 8 4 = some (e % 2 ^ 32) := by
  have h1 : readLE (finalize (patchBoot disk s e) t) 8 4
      = readLE (patchBoot disk s e) 8 4 :=
    readLE_congr _ (fun i h1 h2 =>
      getElem?_finalize_lt (by rw [patchBoot_length]; omega) (by omega))
  rw [h1, patchBoot, readLE_writeLE _ _ _ _
    (by rw [writeLE_length]; omega)]
  rw [show (256 : Nat) ^ 4 = 2 ^ 32 by norm_num,
    Nat.mod_mod_of_dvd _ dvd_rfl]

theorem readLE_finalize_patch_sectors {disk : List Nat} {s e : Nat} {t : Bool}
    (h : 512 ≤ disk.length) :
    readLE (finalize (patchBoot disk s e) t) 4 4 = some (s % 2 ^ 32) := by
  have h1 : readLE (finalize (patchBoot disk s e) t) 4 4
      = readLE (writeLE disk 4 (s % 2 ^ 32) 4) 4 4 := by
    refine readLE_congr _ (fun i h1 h2 => ?_)
    rw [getElem?_finalize_lt (by rw [patchBoot_length]; omega) (by omega),
      patchBoot, getElem?_writeLE_ne _ _ _ _ _ (by omega)]
  rw [h1, readLE_writeLE _ _ _ _ (by omega)]
  rw [show (256 : Nat) ^ 4 = 2 ^ 32 by norm_num,
    Nat.mod_mod_of_dvd _ dvd_rfl]

theorem diskLoad_length {boot service : List Nat} {rb rs : Nat}
    (hb : boot.length = 512) (hrs : rs ≤ service.length) :
    (diskLoad boot service rb rs).length = imgSizeBytes service.length := by
  have h1 := le_imgSizeBytes service.length
  simp only [diskLoad, SECT_SIZE, List.length_append, List.length_take,
    List.length_replicate]
  omega

theorem getElem?_diskLoad_boot {boot service : List Nat} {rs i : Nat}
    (hb : boot.length = 512) (hi : i < 512) :
    (diskLoad boot service boot.length rs)[i]? = boot[i]? := by
  rw [diskLoad, List.take_length,
    List.getElem?_append_left (by
      simp only [SECT_SIZE, List.length_append, List.length_take,
        List.length_replicate]
      omega),
    List.getElem?_append_left (by omega)]

theorem getElem?_diskLoad_tail {boot service : List Nat} {j : Nat}
    (hb : boot.length = 512) (hj : 512 ≤ j) :
    (diskLoad boot service boot.length service.length)[j]?
      = (service ++ List.replicate
          (imgSizeBytes service.length - 512 - service.length) 0)[j - 512]? := by
  unfold diskLoad SECT_SIZE
  rw [List.take_length, List.take_length,
    List.getElem?_append_right (by
      simp only [List.length_append, List.length_replicate]
      omega)]
  have h1 : (boot ++ List.replicate (512 - boot.length) 0).length = 512 := by
    simp only [List.length_append, List.length_replicate]
    omega
  rw [h1]

theorem IsBytes_append {a b : List Nat} (ha : IsBytes a) (hb : IsBytes b) :
    IsBytes (a ++ b) := by
  intro x hx
  rcases List.mem_append.mp hx with h | h
  · exact ha x h
  · exact hb x h

theorem IsBytes_replicate (n v : Nat) (h : v < 256) :
    IsBytes (List.replicate n v) := by
  intro x hx
  rw [List.eq_of_mem_replicate hx]
  exact h

theorem IsBytes_take {l : List Nat} (h : IsBytes l) (n : Nat) :
    IsBytes (l.take n) :=
  fun x hx => h x (List.take_subset n l hx)

theorem IsBytes_diskLoad {boot service : List Nat} {rb rs : Nat}
    (hb : IsBytes boot) (hs : IsBytes service) :
    IsBytes (diskLoad boot service rb rs) :=
  IsBytes_append
    (IsBytes_append (IsBytes_take hb _) (IsBytes_replicate _ _ (by omega)))
    (IsBytes_append (IsBytes_take hs _) (IsBytes_replicate _ _ (by omega)))

/-- Inversion: a successful `buildImage` went through exactly one of
the two ELF classes and produced the patched (and possibly
test-filled) disk. -/
theorem buildImage_ok_shape {disk : List Nat} {sectors : Nat} {t : Bool}
    {img : List Nat} (h : buildImage disk sectors t = .ok img) :
    ∃ entry,
      ((disk[516]? = some 1 ∧ readLE disk (512 + 24) 4 = some entry) ∨
        (disk[516]? = some 2 ∧ readLE disk (512 + 24) 8 = some entry)) ∧
      img = finalize (patchBoot disk sectors entry) t := by
  unfold buildImage at h
  split at h
  case h_2 => exact Except.noConfusion h
  case h_1 m0 m1 m2 m3 heq0 heq1 heq2 heq3 =>
    split at h
    case isFalse => exact Except.noConfusion h
    case isTrue hmagic =>
      split at h
      case h_2 => exact Except.noConfusion h
      case h_1 cls heq5 =>
        split at h
        case isTrue hcls =>
          subst hcls
          split at h
          case h_1 => exact Except.noConfusion h
          case h_2 =>
            split at h
            case h_1 => exact Except.noConfusion h
            case h_2 entry heq6 =>
              injection h with h
              exact ⟨entry, Or.inl ⟨heq5, heq6⟩, h.symm⟩
        case isFalse hcls =>
          split at h
          case isTrue hcls2 =>
            subst hcls2
            split at h
            case h_1 => exact Except.noConfusion h
            case h_2 entry heq6 =>
              injection h with h
              exact ⟨entry, Or.inr ⟨heq5, heq6⟩, h.symm⟩
          case isFalse => exact Except.noConfusion h

/-- Inversion: a successful `vmbuildWith` implies the boot sector had
exactly 512 bytes and the image came from `buildImage`. -/
theorem vmbuildWith_ok_shape {boot service : List Nat} {rb rs : Nat} {t : Bool}
    {img : List Nat} (h : vmbuildWith boot service rb rs t = .ok img) :
    boot.length = 512 ∧
      buildImage (diskLoad boot service rb rs)
        (binarySectors service.length) t = .ok img := by
  unfold vmbuildWith at h
  split at h
  case isTrue hb => exact ⟨hb, h⟩
  case isFalse => exact Except.noConfusion h

/-- The disk buffer of a successful build has at least 517 bytes (the
class byte at index 516 was readable). -/
theorem buildImage_ok_length {disk : List Nat} {sectors : Nat} {t : Bool}
    {img : List Nat} (h : buildImage disk sectors t = .ok img) :
    517 ≤ disk.length := by
  obtain ⟨entry, hcase, _⟩ := buildImage_ok_shape h
  have h516 : disk[516]? ≠ none := by
    rcases hcase with ⟨h5, _⟩ | ⟨h5, _⟩ <;> simp [h5]
  rcases Nat.lt_or_ge 516 disk.length with h | h
  · omega
  · exact absurd (List.getElem?_eq_none h) h516

/-! ### Claim theorems -/

/-- C1: For every boot-sector input of exactly 512 bytes and every
service binary of size S that passes format validation, the assembled
disk image buffer (and the file written from it) has length exactly
512 * (1 + ceil(S/512)) bytes, a multiple of 512. -/
theorem C1_image_size (boot service : List Nat) (t : Bool) (img : List Nat)
    (h : vmbuild boot service t = .ok img) :
    img.length = 512 * (1 + (service.length + 511) / 512) ∧
      img.length % 512 = 0 := by
  unfold vmbuild at h
  obtain ⟨hb, hbuild⟩ := vmbuildWith_ok_shape h
  obtain ⟨entry, _, himg⟩ := buildImage_ok_shape hbuild
  have hlen : (diskLoad boot service boot.length service.length).length
      = imgSizeBytes service.length := diskLoad_length hb le_rfl
  have h512 := imgSizeBytes_pos service.length
  rw [himg, finalize_patch_length (by rw [hlen]; omega), hlen]
  constructor
  · unfold imgSizeBytes SECT_SIZE
    rw [binarySectors_eq_ceil]
    ring
  · exact imgSizeBytes_mod _

/-- C1 witness: the concrete ELF32 build yields a 1024-byte image. -/
theorem C1_witness :
    img32.length = 512 * (1 + (elf32Sample.length + 511) / 512) ∧
      img32.length % 512 = 0 :=
  C1_image_size boot0 elf32Sample false img32 (by rfl)

/-- C2: For every successful build with service binary of size S, the
4-byte field patched at offset 4 of the boot sector equals
ceil(S/512), i.e. the image's total sector count minus one (stated
for every S whose sector count fits the 4-byte field). -/
theorem C2_sector_count (boot service : List Nat) (t : Bool) (img : List Nat)
    (h : vmbuild boot service t = .ok img)
    (hfit : (service.length + 511) / 512 < 2 ^ 32) :
    readLE img 4 4 = some ((service.length + 511) / 512) ∧
      (service.length + 511) / 512 = img.length / 512 - 1 := by
  unfold vmbuild at h
  obtain ⟨hb, hbuild⟩ := vmbuildWith_ok_shape h
  obtain ⟨entry, _, himg⟩ := buildImage_ok_shape hbuild
  have hlen : (diskLoad boot service boot.length service.length).length
      = imgSizeBytes service.length := diskLoad_length hb le_rfl
  have h512 := imgSizeBytes_pos service.length
  constructor
  · rw [himg, readLE_finalize_patch_sectors (by rw [hlen]; omega),
      binarySectors_eq_ceil, Nat.mod_eq_of_lt hfit]
  · rw [himg, finalize_patch_length (by rw [hlen]; omega), hlen]
    unfold imgSizeBytes SECT_SIZE
    rw [binarySectors_eq_ceil]
    omega

/-- C2 witness: the concrete ELF32 build patches sector count 1 at
offset 4, and the 1024-byte image indeed has 2 sectors. -/
theorem C2_witness :
    readLE img32 4 4 = some ((elf32Sample.length + 511) / 512) ∧
      (elf32Sample.length + 511) / 512 = img32.length / 512 - 1 :=
  C2_sector_count boot0 elf32Sample false img32 (by rfl) (by decide)

/-- C3: For every successful build, the 4-byte field patched at
offset 8 equals the service binary's ELF entry point: the native
32-bit entry value (ELF32 header field at service offset 24, as read
from the loaded disk buffer), and exactly the low 32 bits (mod 2^32)
of the 64-bit entry field for an ELF64 binary. -/
theorem C3_entry_point (boot service : List Nat) (t : Bool) (img : List Nat)
    (hbb : IsBytes boot) (hsb : IsBytes service)
    (h : vmbuild boot service t = .ok img) :
    ((diskLoad boot service boot.length service.length)[516]? = some 1 →
      readLE img 8 4
        = readLE (diskLoad boot service boot.length service.length) (512 + 24) 4) ∧
    ((diskLoad boot service boot.length service.length)[516]? = some 2 →
      ∃ e, readLE (diskLoad boot service boot.length service.length)
          (512 + 24) 8 = some e ∧
        readLE img 8 4 = some (e % 2 ^ 32)) := by
  unfold vmbuild at h
  obtain ⟨hb, hbuild⟩ := vmbuildWith_ok_shape h
  obtain ⟨entry, hcase, himg⟩ := buildImage_ok_shape hbuild
  have hdlen := buildImage_ok_length hbuild
  have hbytes := @IsBytes_diskLoad boot service boot.length service.length hbb hsb
  constructor
  · intro h1
    rcases hcase with ⟨h5, hrd⟩ | ⟨h5, hrd⟩
    · rw [himg, readLE_finalize_patch_entry (by omega), hrd]
      have h2 : entry < 2 ^ 32 := by
        have h3 := readLE_lt hbytes _ _ hrd
        norm_num at h3 ⊢
        exact h3
      rw [Nat.mod_eq_of_lt h2]
    · rw [h5] at h1
      simp at h1
  · intro h1
    rcases hcase with ⟨h5, hrd⟩ | ⟨h5, hrd⟩
    · rw [h5] at h1
      simp at h1
    · exact ⟨entry, hrd, by rw [himg, readLE_finalize_patch_entry (by omega)]⟩

/-- C3 witness: the concrete ELF64 build patches the low 32 bits
0x42 of the 64-bit entry point 0x100000042 at offset 8. -/
theorem C3_witness : readLE img64 8 4 = some 0x42 := by
  have h := (C3_entry_point boot0 elf64Sample false img64
    (by unfold IsBytes; decide) (by unfold IsBytes; decide) (by rfl)).2 (by rfl)
  obtain ⟨e, he, hr⟩ := h
  have h2 : readLE (diskLoad boot0 elf64Sample boot0.length elf64Sample.length)
      (512 + 24) 8 = some 0x100000042 := by rfl
  rw [h2] at he
  rw [hr, (Option.some.inj he).symm]
  decide

/-- C9: For every successful build, every byte of the output image's
first sector other than the two 4-byte patch fields at offsets 4 and
8 (i.e. all offsets in [0,4) and [12,512)) equals the corresponding
byte of the boot-sector input, in test mode as well. -/
theorem C9_boot_frame (boot service : List Nat) (t : Bool) (img : List Nat)
    (h : vmbuild boot service t = .ok img) :
    ∀ i, i < 512 → i < 4 ∨ 12 ≤ i → img[i]? = boot[i]? := by
  unfold vmbuild at h
  obtain ⟨hb, hbuild⟩ := vmbuildWith_ok_shape h
  obtain ⟨entry, _, himg⟩ := buildImage_ok_shape hbuild
  have hdlen := buildImage_ok_length hbuild
  intro i hi hout
  rw [himg, getElem?_finalize_lt (by rw [patchBoot_length]; omega) hi,
    getElem?_patchBoot_frame hout, getElem?_diskLoad_boot hb hi]

/-- C9 witness: in the concrete ELF32 build (test mode on, to cover
it) byte 100 of the image equals byte 100 of the boot sector. -/
theorem C9_witness : img32t[100]? = boot0[100]? :=
  C9_boot_frame boot0 elf32Sample true img32t (by rfl) 100 (by omega)
    (Or.inr (by omega))

/-- C4: every validation failure makes `main` end in that failure's
exit outcome before the `fopen` at line 232, so no output file is
created or partially written. -/
theorem C4_no_output_on_error (boot service : List Nat) (rb rs : Nat)
    (t : Bool) (w : Nat) (e : VmErr)
    (h : vmbuildWith boot service rb rs t = .error e) :
    vmbuildRun boot service rb rs t w = (exitOf e, none) := by
  unfold vmbuildRun
  rw [h]

/-- C4 witness: a non-ELF service aborts and the run produces no
output file. -/
theorem C4_witness :
    vmbuildRun boot0 [1, 2, 3, 4, 5] 512 5 false 0
      = (exitOf .notElf, none) :=
  C4_no_output_on_error boot0 [1, 2, 3, 4, 5] 512 5 false 0 .notElf (by rfl)

/-- C5: when the ELF32 path is taken and the eight-field multiboot
header decoded from the located `.multiboot` section violates
`magic = 0x1BADB002` or `(magic + flags + checksum) mod 2^32 = 0`,
the build aborts abnormally and emits nothing. -/
theorem C5_multiboot_fatal (boot service : List Nat) (t : Bool) (w off : Nat)
    (hdr : MultibootHdr) (hb : boot.length = 512)
    (hm0 : (diskLoad boot service boot.length service.length)[512]? = some 0x7f)
    (hm1 : (diskLoad boot service boot.length service.length)[513]? = some 0x45)
    (hm2 : (diskLoad boot service boot.length service.length)[514]? = some 0x4c)
    (hm3 : (diskLoad boot service boot.length service.length)[515]? = some 0x46)
    (hcls : (diskLoad boot service boot.length service.length)[516]? = some 1)
    (hfind : findMultiboot (diskLoad boot service boot.length service.length)
      = some off)
    (hdec : decodeMultiboot (diskLoad boot service boot.length service.length)
      (512 + off) = some hdr)
    (hviol : hdr.magic ≠ MULTIBOOT_HEADER_MAGIC ∨
      (hdr.magic + hdr.flags + hdr.checksum) % 2 ^ 32 ≠ 0) :
    vmbuildRun boot service boot.length service.length t w
      = (ExitOutcome.aborted, none) := by
  have hred : checkMultiboot (diskLoad boot service boot.length service.length)
      = if hdr.magic ≠ MULTIBOOT_HEADER_MAGIC then
          .error (.badMultibootMagic hdr.magic)
        else if (hdr.magic + hdr.flags + hdr.checksum) % 2 ^ 32 ≠ 0 then
          .error (.badMultibootChecksum
            ((hdr.magic + hdr.flags + hdr.checksum) % 2 ^ 32))
        else .ok () := by
    have h1 : checkMultiboot (diskLoad boot service boot.length service.length)
        = match decodeMultiboot (diskLoad boot service boot.length
            service.length) (512 + off) with
          | none => .error .oobRead
          | some h =>
            if h.magic ≠ MULTIBOOT_HEADER_MAGIC then
              .error (.badMultibootMagic h.magic)
            else if (h.magic + h.flags + h.checksum) % 2 ^ 32 ≠ 0 then
              .error (.badMultibootChecksum
                ((h.magic + h.flags + h.checksum) % 2 ^ 32))
            else .ok () := by
      unfold checkMultiboot
      rw [hfind]
    rw [h1, hdec]
  have hcheck : ∃ e, checkMultiboot
      (diskLoad boot service boot.length service.length) = .error e ∧
      exitOf e = .aborted := by
    rw [hred]
    by_cases hmg : hdr.magic = MULTIBOOT_HEADER_MAGIC
    · have hsum : (hdr.magic + hdr.flags + hdr.checksum) % 2 ^ 32 ≠ 0 := by
        rcases hviol with h | h
        · exact absurd hmg h
        · exact h
      rw [if_neg (by simp [hmg]), if_pos hsum]
      exact ⟨_, rfl, rfl⟩
    · rw [if_pos hmg]
      exact ⟨_, rfl, rfl⟩
  obtain ⟨e, he, hab⟩ := hcheck
  have hb' : boot.length = SECT_SIZE := hb
  have hbuild : buildImage (diskLoad boot service boot.length service.length)
      (binarySectors service.length) t = .error e := by
    have h1 : buildImage (diskLoad boot service boot.length service.length)
        (binarySectors service.length) t
        = match checkMultiboot (diskLoad boot service boot.length
            service.length) with
          | .error e => .error e
          | .ok _ =>
            match readLE (diskLoad boot service boot.length service.length)
                (512 + 24) 4 with
            | none => .error .oobRead
            | some entry => .ok (finalize (patchBoot
                (diskLoad boot service boot.length service.length)
                (binarySectors service.length) entry) t) := by
      unfold buildImage
      rw [hm0, hm1, hm2, hm3, hcls]
      rfl
    rw [h1, he]
  have hio : vmbuildWith boot service boot.length service.length t
      = .error e := by
    unfold vmbuildWith
    rw [if_pos hb']
    exact hbuild
  unfold vmbuildRun
  rw [hio]
  show (exitOf e, (none : Option (List Nat))) = (ExitOutcome.aborted, none)
  rw [hab]

/-- C5 witness: the ELF32 sample with a zeroed checksum field aborts
with no output. -/
theorem C5_witness :
    vmbuildRun boot0 elf32BadChk boot0.length elf32BadChk.length false 0
      = (ExitOutcome.aborted, none) :=
  C5_multiboot_fatal boot0 elf32BadChk false 0 172
    ⟨0x1BADB002, 0, 0, 0, 0, 0, 0, 0⟩ (by rfl) (by rfl) (by rfl) (by rfl)
    (by rfl) (by rfl) (by rfl) (by rfl) (Or.inr (by decide))

/-- C6: a boot sector that is not exactly 512 bytes makes the run
return the dedicated reserved code 666, which differs from success 0
and from every Linux errno value, with no output file. -/
theorem C6_bootsector_size (boot service : List Nat) (rb rs : Nat) (t : Bool)
    (w : Nat) (h : boot.length ≠ 512) :
    vmbuildRun boot service rb rs t w = (.code SECT_SIZE_ERR, none) ∧
      SECT_SIZE_ERR ≠ 0 ∧ ∀ e, isLinuxErrno e → e ≠ SECT_SIZE_ERR := by
  refine ⟨?_, by decide, fun e he => by
    unfold isLinuxErrno at he
    unfold SECT_SIZE_ERR
    omega⟩
  have h' : ¬(boot.length = SECT_SIZE) := h
  unfold vmbuildRun vmbuildWith
  rw [if_neg h']
  rfl

/-- C6 witness: a 511-byte boot sector yields exit code 666 and no
output file. -/
theorem C6_witness :
    vmbuildRun boot511 elf64Sample 511 40 false 0
      = (.code SECT_SIZE_ERR, none) :=
  (C6_bootsector_size boot511 elf64Sample 511 40 false 0 (by decide)).1

/-- C7 counterexample: reading only 32 of the 40 service-file bytes
(a partial read) still yields a successful build — the claim that a
partial read fails the build is false on this code. -/
theorem C7_cex :
    32 < elf64Sample.length ∧
      (vmbuildWith boot0 elf64Sample 512 32 false).isOk = true := by
  constructor
  · decide
  · rfl

/-- C7 (amended): the loader never compares `gcount()` with the
file's `stat` size; a partial read of `rs` bytes is accepted, and the
build behaves exactly as if the unread suffix of the service file
were zero bytes. -/
theorem C7_partial_read (boot service : List Nat) (rb rs : Nat) (t : Bool)
    (h : rs ≤ service.length) :
    vmbuildWith boot service rb rs t =
      vmbuildWith boot (service.take rs ++
        List.replicate (service.length - rs) 0) rb service.length t := by
  have hlen : (service.take rs ++
      List.replicate (service.length - rs) 0).length = service.length := by
    simp only [List.length_append, List.length_take, List.length_replicate]
    omega
  have hP := le_imgSizeBytes service.length
  have hcnt : (service.length - rs) +
      (imgSizeBytes service.length - SECT_SIZE - service.length)
      = imgSizeBytes service.length - SECT_SIZE - rs := by
    unfold SECT_SIZE at hP ⊢
    omega
  have h2 : (service.take rs ++ List.replicate (service.length - rs) 0)
      ++ List.replicate
          (imgSizeBytes service.length - SECT_SIZE - service.length) 0
      = service.take rs ++ List.replicate
          (imgSizeBytes service.length - SECT_SIZE - rs) 0 := by
    rw [List.append_assoc, List.append_replicate_replicate, hcnt]
  have hdisk : diskLoad boot service rb rs
      = diskLoad boot (service.take rs ++
          List.replicate (service.length - rs) 0) rb service.length := by
    unfold diskLoad
    rw [hlen, List.take_of_length_le (le_of_eq hlen), h2]
  unfold vmbuildWith
  rw [hlen, hdisk]

/-- C7 witness: with the concrete ELF64 sample, a 32-byte partial
read builds the same image as the zero-extended 32-byte file. -/
theorem C7_witness :
    vmbuildWith boot0 elf64Sample 512 32 false =
      vmbuildWith boot0 (elf64Sample.take 32 ++
        List.replicate (elf64Sample.length - 32) 0) 512
        elf64Sample.length false :=
  C7_partial_read boot0 elf64Sample 512 32 false (by decide)

/-- C8 counterexample: with a successful validation and `fwrite`
reporting 0 of 1024 bytes written, the process still exits with
success status 0 and leaves a truncated file — the claim that a short
write is surfaced as an error is false on this code. -/
theorem C8_cex :
    (vmbuildRun boot0 elf64Sample 512 40 false 0).1 = .code 0 ∧
      (vmbuildRun boot0 elf64Sample 512 40 false 0).2 = some [] ∧
      (vmbuild boot0 elf64Sample false).toOption.map List.length
        = some 1024 := by
  refine ⟨by rfl, by rfl, by rfl⟩

/-- C8 (amended): the writer checks neither the `fopen` result nor
the `fwrite` count: whenever validation succeeded the exit status is
0 regardless of how many bytes were written, and the output file
holds exactly the bytes `fwrite` wrote. -/
theorem C8_writer_no_check (boot service : List Nat) (rb rs : Nat) (t : Bool)
    (w : Nat) (img : List Nat)
    (h : vmbuildWith boot service rb rs t = .ok img) :
    vmbuildRun boot service rb rs t w = (.code 0, some (img.take w)) := by
  unfold vmbuildRun
  rw [h]

/-- C8 witness: the concrete ELF64 build with a 7-byte write exits 0
and leaves the first 7 bytes. -/
theorem C8_witness :
    vmbuildRun boot0 elf64Sample 512 40 false 7
      = (.code 0, some (img64.take 7)) :=
  C8_writer_no_check boot0 elf64Sample 512 40 false 7 img64 (by rfl)

/-- C10: with an empty service the allocated buffer is exactly 512
bytes and the format-inspection lookups at offsets 512..516 are out
of bounds (`none` in this total embedding, ending the build in
`oobRead` rather than a NotExecutable format error); with a service
of at least one byte those lookups land inside the buffer, and any of
them past the service's end reads 0. -/
theorem C10_oob_bounds (boot service : List Nat) (t : Bool)
    (hb : boot.length = 512) (hs : 1 ≤ service.length) :
    ((diskLoad boot [] boot.length 0).length = 512 ∧
      (∀ j, 512 ≤ j → j ≤ 516 → (diskLoad boot [] boot.length 0)[j]? = none) ∧
      vmbuild boot [] t = .error .oobRead) ∧
    (∀ j, 512 ≤ j → j ≤ 516 →
      ∃ v, (diskLoad boot service boot.length service.length)[j]? = some v ∧
        (512 + service.length ≤ j → v = 0)) := by
  have hlen0 : (diskLoad boot [] boot.length 0).length = 512 := by
    rw [diskLoad_length hb (by simp)]
    rfl
  have hnone : ∀ j, 512 ≤ j → (diskLoad boot [] boot.length 0)[j]? = none := by
    intro j hj
    exact List.getElem?_eq_none (by omega)
  have hb' : boot.length = SECT_SIZE := hb
  refine ⟨⟨hlen0, fun j hj _ => hnone j hj, ?_⟩, ?_⟩
  · unfold vmbuild vmbuildWith
    simp only [List.length_nil]
    rw [if_pos hb']
    unfold buildImage
    rw [hnone 512 (by omega)]
  · intro j hj1 hj2
    have hP := imgSizeBytes_ge service.length hs
    have htail := @getElem?_diskLoad_tail boot service j hb hj1
    rcases Nat.lt_or_ge j (512 + service.length) with hc | hc
    · refine ⟨service.get ⟨j - 512, by omega⟩, ?_, fun hcon => by omega⟩
      rw [htail, List.getElem?_append_left (by omega),
        List.getElem?_eq_getElem (by omega)]
      rfl
    · refine ⟨0, ?_, fun _ => rfl⟩
      rw [htail, List.getElem?_append_right (by omega),
        List.getElem?_replicate_of_lt (by omega)]

/-- C10 witness: the concrete empty-service build ends in the
out-of-bounds marker. -/
theorem C10_witness : vmbuild boot0 [] false = Except.error VmErr.oobRead :=
  (C10_oob_bounds boot0 elf64Sample false (by rfl) (by decide)).1.2.2

end Vmbuild
